import Mathlib

/-!
Verification of the transformer core implemented in
`src/transformer_scratch.ipynb`: scaled dot-product attention heads,
multi-head attention, and the position-wise feed-forward block.

Shallow embedding conventions:

* A rank-3 tensor (the only rank the notebook uses) is a shape triple
  together with a total `ℝ`-valued entry function; entries outside the
  shape are irrelevant.
* PyTorch operations that raise at runtime are modelled in `Except PyErr`;
  the error constructors mirror the Python exception actually raised
  (`ZeroDivisionError`, `AssertionError`, `ValueError`, and the
  `RuntimeError` raised on shape mismatches).
* Python object identity is modelled with an allocation counter: every
  `torch.nn.Linear` built receives a fresh parameter-storage id `pid`
  from a counter threaded through construction.  Two layers alias the
  same underlying parameter storage exactly when their `pid`s coincide.
  Constructors return the advanced counter even on failure, so "how much
  was allocated before the error" is observable.
* Parameter initialisation (`torch.nn.init`) is modelled by a source
  function mapping each storage id to the values stored there.
* Dimensions are natural numbers (Python negative sizes are outside the
  model); float arithmetic is idealised over `ℝ`.
-/

/-- Python exception kinds arising in the notebook's core.
`shapeMismatch` stands for the `RuntimeError` PyTorch raises when matrix
dimensions disagree (the spec's `ShapeMismatchError`). -/
inductive PyErr where
  | zeroDivision
  | assertionError
  | valueError
  | shapeMismatch
deriving DecidableEq, Repr

/-- A rank-3 tensor of shape `(batch, seq, dim)` with real entries. -/
structure Tensor3 where
  batch : ℕ
  seq : ℕ
  dim : ℕ
  data : ℕ → ℕ → ℕ → ℝ

/-- A `torch.nn.Linear(inF, outF, bias)` module.  `pid` is the identity of
its underlying parameter storage, `w k m` the weight entry (output index
`k`, input index `m`), `b k` the bias entry (meaningful only when
`hasBias = true`). -/
structure LinearLayer where
  inF : ℕ
  outF : ℕ
  pid : ℕ
  w : ℕ → ℕ → ℝ
  hasBias : Bool
  b : ℕ → ℝ

/-- Applying a linear layer to a rank-3 input: `y[..] = x[..] Wᵀ (+ b)`.
PyTorch raises a RuntimeError when the trailing dimension of the input
differs from the layer's `in_features`. -/
noncomputable def LinearLayer.apply (l : LinearLayer) (x : Tensor3) :
    Except PyErr Tensor3 :=
  if x.dim = l.inF then
    Except.ok ⟨x.batch, x.seq, l.outF, fun bi i k =>
      (∑ m in Finset.range l.inF, x.data bi i m * l.w k m) +
        (if l.hasBias then l.b k else 0)⟩
  else
    Except.error PyErr.shapeMismatch

/-- `torch.bmm`: batched matrix multiply; requires equal batch sizes and
agreeing contracted dimensions. -/
noncomputable def bmm (a b : Tensor3) : Except PyErr Tensor3 :=
  if a.batch = b.batch ∧ a.dim = b.seq then
    Except.ok ⟨a.batch, a.seq, b.dim, fun bi i j =>
      ∑ m in Finset.range a.dim, a.data bi i m * b.data bi m j⟩
  else
    Except.error PyErr.shapeMismatch

/-- `torch.transpose(t, 1, 2)`: swap the last two axes of a rank-3 tensor. -/
def transpose12 (t : Tensor3) : Tensor3 :=
  ⟨t.batch, t.dim, t.seq, fun b i j => t.data b j i⟩

/-- Elementwise division of a tensor by a scalar. -/
noncomputable def scaleDiv (t : Tensor3) (c : ℝ) : Tensor3 :=
  ⟨t.batch, t.seq, t.dim, fun b i j => t.data b i j / c⟩

/-- `torch.nn.functional.softmax(t, dim=-1)`.  PyTorch subtracts the row
maximum before exponentiating for numerical stability; over `ℝ` that is
identical to the plain definition used here. -/
noncomputable def softmaxLast (t : Tensor3) : Tensor3 :=
  ⟨t.batch, t.seq, t.dim, fun b i j =>
    Real.exp (t.data b i j) / ∑ m in Finset.range t.dim, Real.exp (t.data b i m)⟩

/-- The notebook's `Attention` module: one scaled dot-product attention
head with three bias-free projections `d_model → d_k`. -/
structure Attention where
  d_model : ℕ
  d_k : ℕ
  weightQ : LinearLayer
  weightK : LinearLayer
  weightV : LinearLayer

/-- `Attention.__init__(d_model, d_k)`: builds the three bias-free
`torch.nn.Linear(d_model, d_k)` projections, allocating three fresh
parameter storages.  The notebook performs no dimension validation and
PyTorch accepts zero-sized `Linear` layers, so construction never fails
for natural-number dimensions.  `ws pid` supplies the initial values of
storage `pid`. -/
def Attention.init (σ : ℕ) (ws : ℕ → ℕ → ℕ → ℝ) (d_model d_k : ℕ) :
    ℕ × Except PyErr Attention :=
  (σ + 3, Except.ok
    ⟨d_model, d_k,
      ⟨d_model, d_k, σ, ws σ, false, fun _ => 0⟩,
      ⟨d_model, d_k, σ + 1, ws (σ + 1), false, fun _ => 0⟩,
      ⟨d_model, d_k, σ + 2, ws (σ + 2), false, fun _ => 0⟩⟩)

/-- The attention-weight tensor the notebook calls `inter`: the value of
`softmax(bmm(query, transpose(key, 1, 2)) / sqrt(query.size(dim=2)), dim=-1)`,
i.e. the post-softmax, pre-value-multiply weights. -/
noncomputable def Attention.weights (a : Attention) (x : Tensor3) :
    Except PyErr Tensor3 := do
  let query ← a.weightQ.apply x
  let key ← a.weightK.apply x
  let raw ← bmm query (transpose12 key)
  pure (softmaxLast (scaleDiv raw (Real.sqrt query.dim)))

/-- `Attention.forward`: `bmm(inter, value)` where `inter` is
`Attention.weights` (the notebook computes `value` before `inter`; both
fail exactly when the input's trailing dimension differs from `d_model`,
so the factoring preserves the error behaviour). -/
noncomputable def Attention.forward (a : Attention) (x : Tensor3) :
    Except PyErr Tensor3 := do
  let value ← a.weightV.apply x
  let inter ← a.weights x
  bmm inter value

/-- Entry function of `torch.cat(ts, dim=-1)`: index `j` falls in the
chunk whose dimension range contains it. -/
def catData : List Tensor3 → ℕ → ℕ → ℕ → ℝ
  | [], _, _, _ => 0
  | t :: rest, b, i, j =>
      if j < t.dim then t.data b i j else catData rest b i (j - t.dim)

/-- `torch.cat(ts, dim=-1)` on rank-3 tensors: requires a nonempty list
whose members agree on the batch and sequence axes; concatenates along
the trailing axis. -/
def catLast (ts : List Tensor3) : Except PyErr Tensor3 :=
  match ts with
  | [] => Except.error PyErr.shapeMismatch
  | t :: rest =>
      if rest.all (fun u => u.batch == t.batch && u.seq == t.seq) then
        Except.ok ⟨t.batch, t.seq, ((t :: rest).map Tensor3.dim).sum,
          catData (t :: rest)⟩
      else
        Except.error PyErr.shapeMismatch

/-- The notebook's `MultiHeadAttention` module. -/
structure MultiHeadAttention where
  d_model : ℕ
  d_k : ℕ
  heads : List Attention
  out_lin_layer : LinearLayer

/-- `MultiHeadAttention.__init__(d_model, n_heads)`, line by line:
`self.d_k = int(d_model/n_heads)` raises `ZeroDivisionError` when
`n_heads = 0` (modelled as the guard below; for positive `n_heads` the
truncated float division agrees with natural division); the `assert
self.d_k*n_heads == d_model` raises `AssertionError` before any module
is allocated; then `[Attention(self.d_model,self.d_k)]*n_heads`
constructs a SINGLE `Attention` instance and repeats that same object
`n_heads` times (`List.replicate`), so every head index aliases the same
three parameter storages; finally one `torch.nn.Linear(d_model,
d_model)` output layer (with bias) is allocated. -/
def MultiHeadAttention.init (σ : ℕ) (ws : ℕ → ℕ → ℕ → ℝ) (bs : ℕ → ℕ → ℝ)
    (d_model n_heads : ℕ) : ℕ × Except PyErr MultiHeadAttention :=
  if n_heads = 0 then
    (σ, Except.error PyErr.zeroDivision)
  else
    let d_k := d_model / n_heads
    if d_k * n_heads = d_model then
      match Attention.init σ ws d_model d_k with
      | (σ1, Except.ok head) =>
          (σ1 + 1, Except.ok
            ⟨d_model, d_k, List.replicate n_heads head,
              ⟨d_model, d_model, σ1, ws σ1, true, bs σ1⟩⟩)
      | (σ1, Except.error e) => (σ1, Except.error e)
    else
      (σ, Except.error PyErr.assertionError)

/-- The list comprehension `[x(incoming) for x in self.heads]`: apply each
head in order, propagating the first error. -/
noncomputable def runHeads : List Attention → Tensor3 → Except PyErr (List Tensor3)
  | [], _ => Except.ok []
  | h :: t, x => do
      let y ← h.forward x
      let ys ← runHeads t x
      pure (y :: ys)

/-- `MultiHeadAttention.forward`: concatenate the heads' outputs along the
last axis and apply the final linear mixing layer. -/
noncomputable def MultiHeadAttention.forward (m : MultiHeadAttention)
    (x : Tensor3) : Except PyErr Tensor3 := do
  let outs ← runHeads m.heads x
  let concat_out ← catLast outs
  m.out_lin_layer.apply concat_out

/-- ReLU applied elementwise. -/
noncomputable def reluT (t : Tensor3) : Tensor3 :=
  ⟨t.batch, t.seq, t.dim, fun b i j => max (t.data b i j) 0⟩

/-- `torch.nn.Dropout(p)` semantics: in training mode each element is
zeroed where the fresh random mask says so and the retained elements are
rescaled by `1/(1-p)`; in evaluation mode the layer is the identity. -/
noncomputable def dropoutT (p : ℚ) (training : Bool)
    (mask : ℕ → ℕ → ℕ → Bool) (t : Tensor3) : Tensor3 :=
  if training then
    ⟨t.batch, t.seq, t.dim, fun b i j =>
      if mask b i j then 0 else t.data b i j / (1 - (p : ℝ))⟩
  else t

/-- The notebook's `FullyConnectedFeedForwardNetwork` module (the spec's
`FeedForwardBlock`). -/
structure FullyConnectedFeedForwardNetwork where
  d_model : ℕ
  d_hidden : ℕ
  lin1 : LinearLayer
  lin2 : LinearLayer
  dropout_prob : ℚ

/-- `FullyConnectedFeedForwardNetwork.__init__`: `torch.nn.Sequential`
evaluates its arguments left to right, so `Linear(d_model, d_hidden)` and
`Linear(d_hidden, d_model)` allocate their parameters (counter `σ + 2`)
before `torch.nn.Dropout(dropout_prob)` validates its probability.
`torch.nn.Dropout` raises `ValueError` exactly when `p < 0` or `p > 1`;
in particular `p = 1.0` is accepted. -/
def FullyConnectedFeedForwardNetwork.init (σ : ℕ) (ws : ℕ → ℕ → ℕ → ℝ)
    (bs : ℕ → ℕ → ℝ) (d_model d_hidden : ℕ) (p : ℚ) :
    ℕ × Except PyErr FullyConnectedFeedForwardNetwork :=
  let l1 : LinearLayer := ⟨d_model, d_hidden, σ, ws σ, true, bs σ⟩
  let l2 : LinearLayer := ⟨d_hidden, d_model, σ + 1, ws (σ + 1), true, bs (σ + 1)⟩
  if p < 0 ∨ p > 1 then
    (σ + 2, Except.error PyErr.valueError)
  else
    (σ + 2, Except.ok ⟨d_model, d_hidden, l1, l2, p⟩)

/-- `FullyConnectedFeedForwardNetwork.forward`: the `Sequential` pipeline
`Linear → ReLU → Linear → Dropout`.  The ambient `self.training` flag and
the fresh per-call dropout mask are passed explicitly. -/
noncomputable def FullyConnectedFeedForwardNetwork.forward
    (f : FullyConnectedFeedForwardNetwork) (training : Bool)
    (mask : ℕ → ℕ → ℕ → Bool) (x : Tensor3) : Except PyErr Tensor3 := do
  let h1 ← f.lin1.apply x
  let h2 ← f.lin2.apply (reluT h1)
  pure (dropoutT f.dropout_prob training mask h2)

/-! Spec-side formulations (from the specification's own wording, for the
refinement claims about what `forward` computes). -/

/-- Spec wording: `query = input · W_q`, a bias-free projection to `head_dim`. -/
noncomputable def specHeadQuery (a : Attention) (x : Tensor3) (b i k : ℕ) : ℝ :=
  ∑ m in Finset.range a.d_model, x.data b i m * a.weightQ.w k m

/-- Spec wording: `key = input · W_k`. -/
noncomputable def specHeadKey (a : Attention) (x : Tensor3) (b i k : ℕ) : ℝ :=
  ∑ m in Finset.range a.d_model, x.data b i m * a.weightK.w k m

/-- Spec wording: `value = input · W_v`. -/
noncomputable def specHeadValue (a : Attention) (x : Tensor3) (b i k : ℕ) : ℝ :=
  ∑ m in Finset.range a.d_model, x.data b i m * a.weightV.w k m

/-- Spec wording: raw scores `query · keyᵀ`, scaled by `1/sqrt(head_dim)`. -/
noncomputable def specHeadScore (a : Attention) (x : Tensor3) (b i j : ℕ) : ℝ :=
  (∑ k in Finset.range a.d_k, specHeadQuery a x b i k * specHeadKey a x b j k) /
    Real.sqrt a.d_k

/-- Spec wording: softmax of the scaled scores along the last axis. -/
noncomputable def specHeadWeight (a : Attention) (x : Tensor3) (b i j : ℕ) : ℝ :=
  Real.exp (specHeadScore a x b i j) /
    ∑ m in Finset.range x.seq, Real.exp (specHeadScore a x b i m)

/-- Spec wording: output = softmaxed scores · value. -/
noncomputable def specHeadOut (a : Attention) (x : Tensor3) (b i k : ℕ) : ℝ :=
  ∑ j in Finset.range x.seq, specHeadWeight a x b i j * specHeadValue a x b j k

/-- Spec wording: `hidden = ReLU(input · W1 + b1)`. -/
noncomputable def specFFNHidden (f : FullyConnectedFeedForwardNetwork)
    (x : Tensor3) (b i j : ℕ) : ℝ :=
  max ((∑ m in Finset.range f.d_model, x.data b i m * f.lin1.w j m) + f.lin1.b j) 0

/-- Spec wording: the second linear layer's output `hidden · W2 + b2`. -/
noncomputable def specFFNOut (f : FullyConnectedFeedForwardNetwork)
    (x : Tensor3) (b i k : ℕ) : ℝ :=
  (∑ j in Finset.range f.d_hidden, specFFNHidden f x b i j * f.lin2.w k j) +
    f.lin2.b k

/-! Concrete fixtures used by witnesses: a zero initialisation source, an
all-keep dropout mask, and zero input tensors of various shapes. -/

/-- Zero parameter-initialisation source. -/
def ws0 : ℕ → ℕ → ℕ → ℝ := fun _ _ _ => 0

/-- Zero bias-initialisation source. -/
def bs0 : ℕ → ℕ → ℝ := fun _ _ => 0

/-- Dropout mask that keeps every element. -/
def mask0 : ℕ → ℕ → ℕ → Bool := fun _ _ _ => false

/-- An all-zero input tensor of the given shape. -/
def tIn (b s d : ℕ) : Tensor3 := ⟨b, s, d, fun _ _ _ => 0⟩

/-- The attention head `Attention.init 0 ws0 4 2` constructs. -/
def attn0 : Attention :=
  ⟨4, 2,
    ⟨4, 2, 0, ws0 0, false, fun _ => 0⟩,
    ⟨4, 2, 1, ws0 1, false, fun _ => 0⟩,
    ⟨4, 2, 2, ws0 2, false, fun _ => 0⟩⟩

/-- The attention head `Attention.init 0 ws0 512 0` constructs (head_dim 0). -/
def attnZ : Attention :=
  ⟨512, 0,
    ⟨512, 0, 0, ws0 0, false, fun _ => 0⟩,
    ⟨512, 0, 1, ws0 1, false, fun _ => 0⟩,
    ⟨512, 0, 2, ws0 2, false, fun _ => 0⟩⟩

/-- The attention head `Attention.init 0 ws0 512 64` constructs. -/
def attn512 : Attention :=
  ⟨512, 64,
    ⟨512, 64, 0, ws0 0, false, fun _ => 0⟩,
    ⟨512, 64, 1, ws0 1, false, fun _ => 0⟩,
    ⟨512, 64, 2, ws0 2, false, fun _ => 0⟩⟩

/-- The module `MultiHeadAttention.init 0 ws0 bs0 4 2` constructs. -/
def mha0 : MultiHeadAttention :=
  ⟨4, 2, List.replicate 2 attn0, ⟨4, 4, 3, ws0 3, true, bs0 3⟩⟩

/-- The module `MultiHeadAttention.init 0 ws0 bs0 512 8` constructs. -/
def mha512 : MultiHeadAttention :=
  ⟨512, 64,
    List.replicate 8 (⟨512, 64,
      ⟨512, 64, 0, ws0 0, false, fun _ => 0⟩,
      ⟨512, 64, 1, ws0 1, false, fun _ => 0⟩,
      ⟨512, 64, 2, ws0 2, false, fun _ => 0⟩⟩ : Attention),
    ⟨512, 512, 3, ws0 3, true, bs0 3⟩⟩

/-- The block `FullyConnectedFeedForwardNetwork.init 0 ws0 bs0 4 8 (1/2)`
constructs. -/
def ffn0 : FullyConnectedFeedForwardNetwork :=
  ⟨4, 8, ⟨4, 8, 0, ws0 0, true, bs0 0⟩, ⟨8, 4, 1, ws0 1, true, bs0 1⟩, 1 / 2⟩

/-- The block `FullyConnectedFeedForwardNetwork.init 0 ws0 bs0 512 2048 1`
constructs (dropout probability 1.0). -/
def ffn1 : FullyConnectedFeedForwardNetwork :=
  ⟨512, 2048, ⟨512, 2048, 0, ws0 0, true, bs0 0⟩,
    ⟨2048, 512, 1, ws0 1, true, bs0 1⟩, 1⟩


/-! Shared helper lemmas. -/

/-- Two rank-3 tensors are equal when all four fields agree pointwise. -/
theorem Tensor3.ext2 (s t : Tensor3) (h1 : s.batch = t.batch)
    (h2 : s.seq = t.seq) (h3 : s.dim = t.dim)
    (h4 : ∀ b i j, s.data b i j = t.data b i j) : s = t := by
  cases s
  cases t
  simp only [Tensor3.mk.injEq] at *
  exact ⟨h1, h2, h3, funext fun b => funext fun i => funext fun j => h4 b i j⟩

/-- Bind on a successful `Except` computation. -/
theorem exBindOk {α β : Type} (v : α) (f : α → Except PyErr β) :
    (Except.ok v >>= f) = f v := rfl

/-- Pure in the `Except` monad is `ok`. -/
theorem exPureEq {α : Type} (v : α) :
    (pure v : Except PyErr α) = Except.ok v := rfl

/-- Bind on a failed `Except` computation. -/
theorem exBindErr {α β : Type} (e : PyErr) (f : α → Except PyErr β) :
    ((Except.error e : Except PyErr α) >>= f) = Except.error e := rfl

/-- A linear layer applied to an input with the matching trailing
dimension: the result tensor, explicitly. -/
theorem LinearLayer.apply_ok (l : LinearLayer) (x : Tensor3)
    (h : x.dim = l.inF) :
    l.apply x = Except.ok ⟨x.batch, x.seq, l.outF, fun bi i k =>
      (∑ m in Finset.range l.inF, x.data bi i m * l.w k m) +
        (if l.hasBias then l.b k else 0)⟩ := by
  simp [LinearLayer.apply, h]

/-- A linear layer applied to an input with a mismatched trailing
dimension raises the shape error. -/
theorem LinearLayer.apply_err (l : LinearLayer) (x : Tensor3)
    (h : x.dim ≠ l.inF) :
    l.apply x = Except.error PyErr.shapeMismatch := by
  simp [LinearLayer.apply, h]

/-- Batched matrix multiply on compatible shapes: the result, explicitly. -/
theorem bmm_ok (a b : Tensor3) (h1 : a.batch = b.batch) (h2 : a.dim = b.seq) :
    bmm a b = Except.ok ⟨a.batch, a.seq, b.dim, fun bi i j =>
      ∑ m in Finset.range a.dim, a.data bi i m * b.data bi m j⟩ := by
  simp [bmm, h1, h2]

/-- An attention head whose value projection rejects the input's trailing
dimension fails with the shape error (the projection is applied first in
`forward`). -/
theorem Attention.forward_err (a : Attention) (x : Tensor3)
    (h : x.dim ≠ a.weightV.inF) :
    a.forward x = Except.error PyErr.shapeMismatch := by
  rw [Attention.forward, LinearLayer.apply_err a.weightV x h]
  rfl

/-- Reduction of `Attention.weights` for an `Attention.init`-built head on
an input with the matching trailing dimension: the weight tensor has
shape `(batch, seq, seq)` and its entries are the softmaxed scaled
scores. -/
theorem Attention.weights_init (σ : ℕ) (ws : ℕ → ℕ → ℕ → ℝ) (d k : ℕ)
    (a : Attention) (ha : (Attention.init σ ws d k).2 = Except.ok a)
    (x : Tensor3) (hx : x.dim = d) :
    a.weights x = Except.ok ⟨x.batch, x.seq, x.seq,
      fun b i j => specHeadWeight a x b i j⟩ := by
  simp only [Attention.init] at ha
  injection ha with ha
  subst ha
  simp only [Attention.weights]
  rw [LinearLayer.apply_ok _ x hx, LinearLayer.apply_ok _ x hx]
  simp only [exBindOk]
  rw [bmm_ok _ _ (by rfl) (by rfl)]
  simp only [exBindOk, exPureEq]
  refine congrArg Except.ok (Tensor3.ext2 _ _ rfl rfl rfl fun b i j => ?_)
  simp [softmaxLast, scaleDiv, transpose12, specHeadWeight, specHeadScore,
    specHeadQuery, specHeadKey]

/-- Reduction of `Attention.forward` for an `Attention.init`-built head:
the output has shape `(batch, seq, d_k)` and its entries are the
attention-weighted sums of the value projections. -/
theorem Attention.forward_init (σ : ℕ) (ws : ℕ → ℕ → ℕ → ℝ) (d k : ℕ)
    (a : Attention) (ha : (Attention.init σ ws d k).2 = Except.ok a)
    (x : Tensor3) (hx : x.dim = d) :
    a.forward x = Except.ok ⟨x.batch, x.seq, k,
      fun b i j => specHeadOut a x b i j⟩ := by
  have hw := Attention.weights_init σ ws d k a ha x hx
  simp only [Attention.init] at ha
  injection ha with ha
  subst ha
  simp only [Attention.forward]
  rw [LinearLayer.apply_ok _ x hx]
  simp only [exBindOk]
  rw [hw]
  simp only [exBindOk]
  rw [bmm_ok _ _ (by rfl) (by rfl)]
  refine congrArg Except.ok (Tensor3.ext2 _ _ rfl rfl rfl fun b i j => ?_)
  simp [specHeadOut, specHeadValue]

/-- C3: for every input tensor of shape (batch, seq_len, model_dim), a
single attention head's forward computes exactly the bias-free
query/key/value projections to head_dim, the query-key scores scaled by
1/sqrt(head_dim), a softmax along the last axis, and the product of the
softmaxed scores with the value projection, yielding shape
(batch, seq_len, head_dim). -/
theorem headForwardComputesScaledDotProduct (σ : ℕ) (ws : ℕ → ℕ → ℕ → ℝ)
    (d k : ℕ) (a : Attention)
    (ha : (Attention.init σ ws d k).2 = Except.ok a)
    (x : Tensor3) (hx : x.dim = d) :
    ∃ y, a.forward x = Except.ok y ∧ y.batch = x.batch ∧ y.seq = x.seq ∧
      y.dim = k ∧ ∀ b i j, y.data b i j = specHeadOut a x b i j :=
  ⟨_, Attention.forward_init σ ws d k a ha x hx, rfl, rfl, rfl,
    fun _ _ _ => rfl⟩

/-- Witness for C3 at a concrete head (model_dim 4, head_dim 2) and a
concrete input of shape (2, 3, 4). -/
theorem headForwardComputesScaledDotProduct_witness :
    ∃ y, attn0.forward (tIn 2 3 4) = Except.ok y ∧
      y.batch = (tIn 2 3 4).batch ∧ y.seq = (tIn 2 3 4).seq ∧ y.dim = 2 ∧
      ∀ b i j, y.data b i j = specHeadOut attn0 (tIn 2 3 4) b i j :=
  headForwardComputesScaledDotProduct 0 ws0 4 2 attn0 rfl (tIn 2 3 4) rfl

/-- C7: for every input and every query position, the attention-weight
row produced by the softmax (after scaling, before multiplying by the
value matrix) sums to 1 and every entry in it is nonnegative. -/
theorem headWeightsRowStochastic (σ : ℕ) (ws : ℕ → ℕ → ℕ → ℝ) (d k : ℕ)
    (a : Attention) (ha : (Attention.init σ ws d k).2 = Except.ok a)
    (x : Tensor3) (hx : x.dim = d) :
    ∃ w, a.weights x = Except.ok w ∧ w.batch = x.batch ∧ w.seq = x.seq ∧
      w.dim = x.seq ∧ ∀ b i, i < x.seq →
        (∑ j in Finset.range w.dim, w.data b i j) = 1 ∧
        ∀ j, 0 ≤ w.data b i j := by
  refine ⟨_, Attention.weights_init σ ws d k a ha x hx, rfl, rfl, rfl,
    fun b i hi => ⟨?_, fun j => ?_⟩⟩
  · have hpos : 0 < ∑ m in Finset.range x.seq,
        Real.exp (specHeadScore a x b i m) :=
      Finset.sum_pos (fun m _ => Real.exp_pos _)
        (Finset.nonempty_range_iff.mpr (by omega))
    simp only [specHeadWeight]
    rw [← Finset.sum_div]
    exact div_self hpos.ne'
  · exact div_nonneg (Real.exp_pos _).le
      (Finset.sum_nonneg fun m _ => (Real.exp_pos _).le)

/-- Witness for C7 at a concrete head and input of shape (1, 2, 4). -/
theorem headWeightsRowStochastic_witness :
    ∃ w, attn0.weights (tIn 1 2 4) = Except.ok w ∧
      w.batch = 1 ∧ w.seq = 2 ∧ w.dim = 2 ∧ ∀ b i, i < 2 →
        (∑ j in Finset.range w.dim, w.data b i j) = 1 ∧
        ∀ j, 0 ≤ w.data b i j :=
  headWeightsRowStochastic 0 ws0 4 2 attn0 rfl (tIn 1 2 4) rfl

/-- C2: constructing MultiHeadAttention fails at construction time with
the fatal configuration error (the notebook's `assert`, raising
`AssertionError`) whenever the computed head_dim times n_heads differs
from model_dim, and before any parameter is allocated (the counter is
unchanged); concretely (512, 7) fails while (512, 8) succeeds with
head_dim 64. -/
theorem mhaDivisibilityEnforced (σ : ℕ) (ws : ℕ → ℕ → ℕ → ℝ)
    (bs : ℕ → ℕ → ℝ) :
    ((MultiHeadAttention.init σ ws bs 512 7).2 =
        Except.error PyErr.assertionError ∧
      (MultiHeadAttention.init σ ws bs 512 7).1 = σ) ∧
    (∃ m, (MultiHeadAttention.init σ ws bs 512 8).2 = Except.ok m ∧
      m.d_k = 64) ∧
    ∀ d n : ℕ, 0 < n → d / n * n ≠ d →
      (MultiHeadAttention.init σ ws bs d n).2 =
        Except.error PyErr.assertionError ∧
      (MultiHeadAttention.init σ ws bs d n).1 = σ := by
  refine ⟨⟨rfl, rfl⟩, ⟨_, rfl, rfl⟩, fun d n hn hdiv => ?_⟩
  have hn0 : n ≠ 0 := hn.ne'
  simp [MultiHeadAttention.init, hn0, hdiv]

/-- Witness for C2's quantified part at model_dim 5, n_heads 2
(5 / 2 * 2 = 4 ≠ 5). -/
theorem mhaDivisibilityEnforced_witness :
    (MultiHeadAttention.init 0 ws0 bs0 5 2).2 =
      Except.error PyErr.assertionError ∧
    (MultiHeadAttention.init 0 ws0 bs0 5 2).1 = 0 :=
  (mhaDivisibilityEnforced 0 ws0 bs0).2.2 5 2 (by decide) (by decide)

/-- C10: constructing MultiHeadAttention with n_heads = 0 raises the
division-by-zero error from the unguarded `int(d_model/n_heads)` before
the divisibility assert runs: nothing is allocated and the failure is
not the configuration (assertion) error. -/
theorem mhaZeroHeadsDivisionByZero (σ : ℕ) (ws : ℕ → ℕ → ℕ → ℝ)
    (bs : ℕ → ℕ → ℝ) (d : ℕ) :
    (MultiHeadAttention.init σ ws bs d 0).2 =
      Except.error PyErr.zeroDivision ∧
    (MultiHeadAttention.init σ ws bs d 0).1 = σ ∧
    (MultiHeadAttention.init σ ws bs d 0).2 ≠
      Except.error PyErr.assertionError := by
  refine ⟨rfl, rfl, ?_⟩
  simp [MultiHeadAttention.init]

/-- C1 fails on the code: `[Attention(self.d_model,self.d_k)]*n_heads`
constructs one head object and repeats it, so for the valid
configuration (512, 8) every head index holds the same `Attention`
instance and the query/key/value parameter storages coincide across all
head indices instead of being pairwise distinct. -/
theorem mhaHeadsAreAliased (σ : ℕ) (ws : ℕ → ℕ → ℕ → ℝ)
    (bs : ℕ → ℕ → ℝ) (m : MultiHeadAttention)
    (hm : (MultiHeadAttention.init σ ws bs 512 8).2 = Except.ok m) :
    m.heads.length = 8 ∧
    (∃ a, m.heads = List.replicate 8 a) ∧
    ∀ a ∈ m.heads, ∀ a2 ∈ m.heads,
      a = a2 ∧ a.weightQ.pid = a2.weightQ.pid ∧
      a.weightK.pid = a2.weightK.pid ∧ a.weightV.pid = a2.weightV.pid := by
  simp only [MultiHeadAttention.init, Attention.init] at hm
  norm_num at hm
  obtain rfl := hm.symm
  refine ⟨by simp, ⟨_, rfl⟩, fun a ha a2 ha2 => ?_⟩
  have h1 := (List.eq_of_mem_replicate ha)
  have h2 := (List.eq_of_mem_replicate ha2)
  subst h1
  subst h2
  exact ⟨rfl, rfl, rfl, rfl⟩

/-- Witness for C1's aliasing theorem at the concrete construction
`MultiHeadAttention.init 0 ws0 bs0 512 8`. -/
theorem mhaHeadsAreAliased_witness :
    mha512.heads.length = 8 ∧
    (∃ a, mha512.heads = List.replicate 8 a) ∧
    ∀ a ∈ mha512.heads, ∀ a2 ∈ mha512.heads,
      a = a2 ∧ a.weightQ.pid = a2.weightQ.pid ∧
      a.weightK.pid = a2.weightK.pid ∧ a.weightV.pid = a2.weightV.pid :=
  mhaHeadsAreAliased 0 ws0 bs0 mha512 rfl

/-- C6 fails on the code: `Attention.__init__` performs no dimension
validation, and PyTorch accepts zero-sized linear layers, so the
construction with head_dim = 0 (a value the claim says must be
rejected) succeeds. -/
theorem attnZeroHeadDimAccepted :
    (Attention.init 0 ws0 512 0).2 = Except.ok attnZ := rfl

/-- C6 amended: constructing a single attention head never fails for any
natural-number dimensions — no validation is performed; the three
projections are allocated unconditionally. -/
theorem attnInitNeverFails (σ : ℕ) (ws : ℕ → ℕ → ℕ → ℝ) (d k : ℕ) :
    ∃ a, (Attention.init σ ws d k).2 = Except.ok a ∧
      a.d_model = d ∧ a.d_k = k ∧ (Attention.init σ ws d k).1 = σ + 3 :=
  ⟨_, rfl, rfl, rfl, rfl⟩

/-- Running a replicated head list when the head succeeds yields the
replicated output (the notebook's list comprehension over `self.heads`,
whose elements are all the same object). -/
theorem runHeads_replicate (n : ℕ) (h : Attention) (x y : Tensor3)
    (hy : h.forward x = Except.ok y) :
    runHeads (List.replicate n h) x = Except.ok (List.replicate n y) := by
  induction n with
  | zero => rfl
  | succ n ih =>
      simp only [List.replicate_succ, runHeads, hy, ih, exBindOk, exPureEq]

/-- Concatenating a nonempty replicated list of identical tensors along
the trailing axis multiplies the trailing dimension by the count. -/
theorem catLast_replicate (n : ℕ) (y : Tensor3) (hn : n ≠ 0) :
    catLast (List.replicate n y) =
      Except.ok ⟨y.batch, y.seq, n * y.dim, catData (List.replicate n y)⟩ := by
  obtain ⟨m, rfl⟩ := Nat.exists_eq_succ_of_ne_zero hn
  simp only [List.replicate_succ, catLast]
  rw [if_pos]
  · congr 1
    refine Tensor3.ext2 _ _ rfl rfl ?_ fun b i j => rfl
    simp [List.map_replicate, List.sum_replicate, smul_eq_mul, Nat.succ_mul,
      Nat.add_comm]
  · simp [List.all_eq_true, List.mem_replicate]

/-- C4: for every validly constructed MultiHeadAttention and every input
of shape (batch, seq_len, model_dim), `MultiHeadAttention.forward`
returns a tensor of exactly the same shape: the per-head outputs of
shape (batch, seq_len, head_dim) are concatenated along the last axis
(giving trailing dimension n_heads × head_dim = model_dim) and passed
through the model_dim → model_dim output projection. -/
theorem mhaForwardPreservesShape (σ : ℕ) (ws : ℕ → ℕ → ℕ → ℝ)
    (bs : ℕ → ℕ → ℝ) (d n : ℕ) (m : MultiHeadAttention)
    (hm : (MultiHeadAttention.init σ ws bs d n).2 = Except.ok m)
    (x : Tensor3) (hx : x.dim = d) :
    ∃ y, m.forward x = Except.ok y ∧ y.batch = x.batch ∧ y.seq = x.seq ∧
      y.dim = x.dim := by
  by_cases hn : n = 0
  · subst hn
    simp [MultiHeadAttention.init] at hm
  by_cases hdiv : d / n * n = d
  · simp only [MultiHeadAttention.init, if_neg hn, if_pos hdiv,
      Attention.init] at hm
    injection hm with hm
    subst hm
    have hfwd := Attention.forward_init σ ws d (d / n) _ rfl x hx
    simp only [MultiHeadAttention.forward]
    rw [runHeads_replicate n _ x _ hfwd]
    simp only [exBindOk]
    rw [catLast_replicate n _ hn]
    simp only [exBindOk]
    rw [LinearLayer.apply_ok _ _
      (by show n * (d / n) = d; rw [Nat.mul_comm]; exact hdiv)]
    exact ⟨_, rfl, rfl, rfl, hx.symm⟩
  · simp [MultiHeadAttention.init, hn, hdiv] at hm

/-- Witness for C4 at the concrete module (model_dim 4, n_heads 2) and a
concrete input of shape (2, 3, 4). -/
theorem mhaForwardPreservesShape_witness :
    ∃ y, mha0.forward (tIn 2 3 4) = Except.ok y ∧
      y.batch = (tIn 2 3 4).batch ∧ y.seq = (tIn 2 3 4).seq ∧
      y.dim = (tIn 2 3 4).dim :=
  mhaForwardPreservesShape 0 ws0 bs0 4 2 mha0 rfl (tIn 2 3 4) rfl

/-- C8: for every input of shape (batch, seq_len, model_dim), the
feed-forward block computes hidden = ReLU(input·W1 + b1) with trailing
dimension hidden_dim, then output = Dropout(hidden·W2 + b2) with
trailing dimension model_dim (both layers carrying bias); in evaluation
mode the dropout step is the identity, so the block returns exactly the
second linear layer's output. -/
theorem ffnForwardComputesReluPipeline (σ : ℕ) (ws : ℕ → ℕ → ℕ → ℝ)
    (bs : ℕ → ℕ → ℝ) (d h : ℕ) (p : ℚ)
    (f : FullyConnectedFeedForwardNetwork)
    (hf : (FullyConnectedFeedForwardNetwork.init σ ws bs d h p).2 =
      Except.ok f)
    (mask : ℕ → ℕ → ℕ → Bool) (x : Tensor3) (hx : x.dim = d) :
    (∃ hid, f.lin1.apply x = Except.ok hid ∧ hid.batch = x.batch ∧
      hid.seq = x.seq ∧ hid.dim = f.d_hidden) ∧
    (∀ tr, ∃ y, f.forward tr mask x = Except.ok y ∧ y.batch = x.batch ∧
      y.seq = x.seq ∧ y.dim = f.d_model) ∧
    (∃ y, f.forward false mask x = Except.ok y ∧
      ∀ b i j, y.data b i j = specFFNOut f x b i j) := by
  by_cases hp : p < 0 ∨ p > 1
  · simp [FullyConnectedFeedForwardNetwork.init, hp] at hf
  simp only [FullyConnectedFeedForwardNetwork.init, if_neg hp] at hf
  injection hf with hf
  subst hf
  refine ⟨⟨_, LinearLayer.apply_ok _ x hx, rfl, rfl, rfl⟩, fun tr => ?_, ?_⟩
  · simp only [FullyConnectedFeedForwardNetwork.forward]
    rw [LinearLayer.apply_ok _ x hx]
    simp only [exBindOk]
    rw [LinearLayer.apply_ok _ _ rfl]
    simp only [exBindOk, exPureEq]
    cases tr
    · exact ⟨_, rfl, rfl, rfl, rfl⟩
    · exact ⟨_, rfl, rfl, rfl, rfl⟩
  · simp only [FullyConnectedFeedForwardNetwork.forward]
    rw [LinearLayer.apply_ok _ x hx]
    simp only [exBindOk]
    rw [LinearLayer.apply_ok _ _ rfl]
    simp only [exBindOk, exPureEq]
    refine ⟨_, rfl, fun b i j => ?_⟩
    simp [dropoutT, reluT, specFFNOut, specFFNHidden]

/-- Witness for C8 at the concrete block (model_dim 4, hidden_dim 8,
dropout 1/2) and a concrete input of shape (2, 3, 4). -/
theorem ffnForwardComputesReluPipeline_witness :
    (∃ hid, ffn0.lin1.apply (tIn 2 3 4) = Except.ok hid ∧
      hid.batch = (tIn 2 3 4).batch ∧ hid.seq = (tIn 2 3 4).seq ∧
      hid.dim = ffn0.d_hidden) ∧
    (∀ tr, ∃ y, ffn0.forward tr mask0 (tIn 2 3 4) = Except.ok y ∧
      y.batch = (tIn 2 3 4).batch ∧ y.seq = (tIn 2 3 4).seq ∧
      y.dim = ffn0.d_model) ∧
    (∃ y, ffn0.forward false mask0 (tIn 2 3 4) = Except.ok y ∧
      ∀ b i j, y.data b i j = specFFNOut ffn0 (tIn 2 3 4) b i j) :=
  ffnForwardComputesReluPipeline 0 ws0 bs0 4 8 (1 / 2) ffn0
    (by norm_num [FullyConnectedFeedForwardNetwork.init, ffn0]) mask0
    (tIn 2 3 4) rfl

/-- C5 fails on the code: `torch.nn.Dropout(1.0)` is accepted (torch only
rejects p < 0 or p > 1), so constructing the feed-forward block with
dropout_prob = 1.0 — which the claim says must be rejected — succeeds. -/
theorem ffnDropoutOneAccepted :
    (FullyConnectedFeedForwardNetwork.init 0 ws0 bs0 512 2048 1).2 =
      Except.ok ffn1 := by
  norm_num [FullyConnectedFeedForwardNetwork.init, ffn1]

/-- C5 amended: construction fails (with torch's ValueError) exactly when
dropout_prob < 0 or dropout_prob > 1 — so dropout_prob = 1.0 is
accepted — and both linear layers' parameters are allocated before the
dropout probability is validated (the allocation counter always advances
by 2). -/
theorem ffnInitDropoutValidation (σ : ℕ) (ws : ℕ → ℕ → ℕ → ℝ)
    (bs : ℕ → ℕ → ℝ) (d h : ℕ) (p : ℚ) :
    ((FullyConnectedFeedForwardNetwork.init σ ws bs d h p).2 =
        Except.error PyErr.valueError ↔ (p < 0 ∨ p > 1)) ∧
    (FullyConnectedFeedForwardNetwork.init σ ws bs d h p).1 = σ + 2 ∧
    (¬(p < 0 ∨ p > 1) →
      ∃ f, (FullyConnectedFeedForwardNetwork.init σ ws bs d h p).2 =
        Except.ok f ∧ f.dropout_prob = p) := by
  by_cases hp : p < 0 ∨ p > 1 <;>
    simp [FullyConnectedFeedForwardNetwork.init, hp]

/-- Witness for C5's amended theorem at dropout probability 1/2. -/
theorem ffnInitDropoutValidation_witness :
    ∃ f, (FullyConnectedFeedForwardNetwork.init 0 ws0 bs0 4 8 (1 / 2)).2 =
      Except.ok f ∧ f.dropout_prob = 1 / 2 :=
  (ffnInitDropoutValidation 0 ws0 bs0 4 8 (1 / 2)).2.2 (by norm_num)

/-- C9: every component constructed for a given model_dim rejects, at
forward-call time, any input whose trailing dimension differs from that
model_dim — the attention head, the multi-head module, and the
feed-forward block all return the shape-mismatch error and no output. -/
theorem componentsRejectMismatchedTrailingDim :
    (∀ (σ : ℕ) (ws : ℕ → ℕ → ℕ → ℝ) (d k : ℕ) (a : Attention),
      (Attention.init σ ws d k).2 = Except.ok a →
      ∀ x : Tensor3, x.dim ≠ d →
        a.forward x = Except.error PyErr.shapeMismatch) ∧
    (∀ (σ : ℕ) (ws : ℕ → ℕ → ℕ → ℝ) (bs : ℕ → ℕ → ℝ) (d n : ℕ)
      (m : MultiHeadAttention),
      (MultiHeadAttention.init σ ws bs d n).2 = Except.ok m →
      ∀ x : Tensor3, x.dim ≠ d →
        m.forward x = Except.error PyErr.shapeMismatch) ∧
    (∀ (σ : ℕ) (ws : ℕ → ℕ → ℕ → ℝ) (bs : ℕ → ℕ → ℝ) (d h : ℕ) (p : ℚ)
      (f : FullyConnectedFeedForwardNetwork),
      (FullyConnectedFeedForwardNetwork.init σ ws bs d h p).2 = Except.ok f →
      ∀ (tr : Bool) (mask : ℕ → ℕ → ℕ → Bool) (x : Tensor3), x.dim ≠ d →
        f.forward tr mask x = Except.error PyErr.shapeMismatch) := by
  refine ⟨fun σ ws d k a ha x hx => ?_, fun σ ws bs d n m hm x hx => ?_,
    fun σ ws bs d h p f hf tr mask x hx => ?_⟩
  · simp only [Attention.init] at ha
    injection ha with ha
    subst ha
    exact Attention.forward_err _ x hx
  · by_cases hn : n = 0
    · subst hn
      simp [MultiHeadAttention.init] at hm
    by_cases hdiv : d / n * n = d
    · simp only [MultiHeadAttention.init, if_neg hn, if_pos hdiv,
        Attention.init] at hm
      injection hm with hm
      subst hm
      obtain ⟨n2, rfl⟩ := Nat.exists_eq_succ_of_ne_zero hn
      simp only [MultiHeadAttention.forward, List.replicate_succ, runHeads]
      rw [Attention.forward_err _ x hx]
      rfl
    · simp [MultiHeadAttention.init, hn, hdiv] at hm
  · by_cases hp : p < 0 ∨ p > 1
    · simp [FullyConnectedFeedForwardNetwork.init, hp] at hf
    simp only [FullyConnectedFeedForwardNetwork.init, if_neg hp] at hf
    injection hf with hf
    subst hf
    simp only [FullyConnectedFeedForwardNetwork.forward]
    rw [LinearLayer.apply_err _ x hx]
    rfl

/-- Witness for C9: components constructed for model_dim 512 reject a
concrete input of trailing dimension 256. -/
theorem componentsRejectMismatchedTrailingDim_witness :
    attn512.forward (tIn 1 1 256) = Except.error PyErr.shapeMismatch ∧
    mha512.forward (tIn 1 1 256) = Except.error PyErr.shapeMismatch ∧
    ffn1.forward false mask0 (tIn 1 1 256) =
      Except.error PyErr.shapeMismatch :=
  ⟨componentsRejectMismatchedTrailingDim.1 0 ws0 512 64 attn512 rfl
      (tIn 1 1 256) (by decide),
    componentsRejectMismatchedTrailingDim.2.1 0 ws0 bs0 512 8 mha512 rfl
      (tIn 1 1 256) (by decide),
    componentsRejectMismatchedTrailingDim.2.2 0 ws0 bs0 512 2048 1 ffn1
      (by norm_num [FullyConnectedFeedForwardNetwork.init, ffn1]) false mask0
      (tIn 1 1 256) (by decide)⟩
